import Mathlib

/-!
Verification development for the user-registration HTTP service (`app.py`).

The service is a Flask application over a SQLite file.  We give a shallow
embedding of its pure validators and of each HTTP handler: strings are
`List Char`, the SQLite tables are Lean lists inside a `Db` record, and
each handler becomes a pure function from the request body (already parsed
JSON, modelled with `Option` fields) and a small success/failure oracle for
the storage calls to a response record.  The response record also tracks
two control-flow facts the handlers' `try/except/finally` blocks determine:
whether an exception escaped the handler (Flask then answers 500) and
whether the handler's SQLite connection was still open when it exited.

Character predicates are modelled faithfully for the ASCII range, which is
where Python's `str.strip`, `str.isdigit` and the regex classes `\s`,
`[^\s@]` are exercised by the properties below.
-/

/-- Strings of the embedding: Python `str` as a list of characters. -/
abbrev Str := List Char

/-- Python whitespace on the ASCII range: the characters accepted by
`str.isspace` and matched by the regex class `\s`, namely TAB (9), LF (10),
VT (11), FF (12), CR (13), FS..US (28-31) and space (32). -/
def pyIsSpace (c : Char) : Bool :=
  c.toNat = 32 || (9 ≤ c.toNat && c.toNat ≤ 13) || (28 ≤ c.toNat && c.toNat ≤ 31)

/-- Python `str.strip()`: drop leading and trailing whitespace. -/
def pyStrip (s : Str) : Str :=
  ((s.dropWhile pyIsSpace).reverse.dropWhile pyIsSpace).reverse

/-- Python `str.isdigit()` on a whole string: non-empty and every character a
digit.  On the ASCII range a digit is exactly `'0'..'9'` (`Char.isDigit`);
Python additionally accepts some non-ASCII digit characters, which this
ASCII-faithful model does not represent. -/
def pyStrIsDigit (s : Str) : Bool :=
  !s.isEmpty && s.all Char.isDigit

/-- The character class `[\s\-\(\)\+]` stripped by `validate_phone`
(app.py line 184): whitespace, hyphen, parentheses, plus. -/
def stripPhoneChar (c : Char) : Bool :=
  pyIsSpace c || c == '-' || c == '(' || c == ')' || c == '+'

/-- `validate_phone` (app.py lines 183-185): remove every stripped character,
then require the remainder to be a non-empty digit string of length ≥ 7. -/
def validate_phone (phone : Str) : Bool :=
  let cleaned := phone.filter (fun c => !stripPhoneChar c)
  pyStrIsDigit cleaned && decide (7 ≤ cleaned.length)

/-- The character class `[^\s@]` of the email pattern: anything but
whitespace and `'@'`. -/
def okEmailChar (c : Char) : Bool :=
  !pyIsSpace c && !(c == '@')

/-- Split a string at its first `'@'`, if any. -/
def splitAtFirstAt : Str → Option (Str × Str)
  | [] => none
  | c :: rest =>
    if c = '@' then some ([], rest)
    else
      match splitAtFirstAt rest with
      | none => none
      | some (l, r) => some (c :: l, r)

/-- Does the list contain a `'.'` at a position that is not its last? -/
def hasDotNonLast : Str → Bool
  | [] => false
  | [_] => false
  | c :: rest => (c == '.') || hasDotNonLast rest

/-- Does the domain have a `'.'` at some interior position (neither first nor
last character)?  This is exactly when it decomposes as `[^\s@]+\.[^\s@]+`
once all its characters are known to lie in `[^\s@]`. -/
def domainHasInteriorDot : Str → Bool
  | [] => false
  | _ :: rest => hasDotNonLast rest

/-- Whole-string match of `[^\s@]+@[^\s@]+\.[^\s@]+`: split at the first
`'@'`; the local part must be non-empty with every character in `[^\s@]`
(so there is no second `'@'`), and the domain must be all `[^\s@]` with an
interior dot. -/
def emailCoreMatch (t : Str) : Bool :=
  match splitAtFirstAt t with
  | none => false
  | some (l, d) =>
    !l.isEmpty && l.all okEmailChar && d.all okEmailChar && domainHasInteriorDot d

/-- Python's `$` anchor matches at the end of the string or just before one
trailing newline, so the regex may ignore a single final `'\n'`. -/
def dropTrailingNewline (s : Str) : Str :=
  match s.reverse with
  | [] => s
  | c :: r => if c = '\n' then r.reverse else s

/-- `validate_email` (app.py lines 179-181):
`re.match(r'^[^\s@]+@[^\s@]+\.[^\s@]+$', email) is not None`. -/
def validate_email (email : Str) : Bool :=
  emailCoreMatch (dropTrailingNewline email)

/-! ### Spec-side renderings of the validator claims

These two definitions follow the wording of spec claims, to be compared
with the code-derived `validate_phone` above. -/

/-- The strip set exactly as the phone claim words it: the characters
space, hyphen, `'('`, `')'` and `'+'` (literal space only, not the
whitespace class). -/
def claimStripChar (c : Char) : Bool :=
  c == ' ' || c == '-' || c == '(' || c == ')' || c == '+'

/-- The phone validator exactly as the claim words it: remove every
occurrence of space, hyphen, `'('`, `')'`, `'+'`; accept iff the remainder
is non-empty, all decimal digits, and of length ≥ 7. -/
def validate_phone_claimed (s : Str) : Bool :=
  let cleaned := s.filter (fun c => !claimStripChar c)
  (!cleaned.isEmpty && cleaned.all Char.isDigit) && decide (7 ≤ cleaned.length)

/-- The phone validator as amended: identical to the claim's wording except
that the whole whitespace class `\s` is stripped, not only the space
character. -/
def validate_phone_amendedSpec (s : Str) : Bool :=
  let cleaned := s.filter (fun c =>
    !(pyIsSpace c || c == '-' || c == '(' || c == ')' || c == '+'))
  (!cleaned.isEmpty && cleaned.all Char.isDigit) && decide (7 ≤ cleaned.length)

/-- The email shape exactly as the email claim words it: the string consists
of exactly one `'@'` separating a non-empty local part (no whitespace or
`'@'`) from a domain part containing a `'.'` with non-empty pieces around
it. -/
def claimEmailShape (s : Str) : Bool :=
  match splitAtFirstAt s with
  | none => false
  | some (l, d) =>
    !l.isEmpty && l.all okEmailChar && d.all (fun c => !(c == '@')) &&
      domainHasInteriorDot d

/-! ### The data model

The SQLite tables of `app.py` as Lean lists.  `created_at` timestamps are
not modelled (no property below depends on them); `nextUserId` and
`nextNumberId` model the `AUTOINCREMENT` counters that `cursor.lastrowid`
reports. -/

/-- A row of the `users` table (app.py lines 48-58). -/
structure UserRow where
  id : Nat
  name : Str
  company : Option Str
  email : Option Str
  phone : Option Str
deriving DecidableEq, Repr

/-- A row of the `users_numbers` table (app.py lines 61-67). -/
structure NumberRow where
  id : Nat
  details_number : Str
deriving DecidableEq, Repr

/-- A row of the `admin_users` table (app.py lines 88-96). -/
structure AdminRow where
  username : Str
  password_hash : Str
  salt : Str
deriving DecidableEq, Repr

/-- The whole store. -/
structure Db where
  users : List UserRow
  nextUserId : Nat
  numbers : List NumberRow
  nextNumberId : Nat
  admins : List AdminRow
deriving DecidableEq, Repr

/-- A store whose `users` and `users_numbers` tables are empty, as after
`init_db`/`init_auth_db`; `admins` holds whatever the seeding produced. -/
def freshDb (admins : List AdminRow) : Db :=
  { users := [], nextUserId := 1, numbers := [], nextNumberId := 1,
    admins := admins }

/-- What a handler invocation produces.  `status` is the HTTP status the
client observes; when `escaped = true` an exception propagated out of the
handler (the `finally` block itself raised) and Flask answers 500, so
`status` is set to 500 on those paths.  `connOpenAtExit` records whether
the handler's SQLite connection was still open when control left the
handler.  `storageAccessed` records whether `sqlite3.connect` was ever
called. -/
structure Resp where
  db : Db
  status : Nat := 0
  escaped : Bool := false
  connOpenAtExit : Bool := false
  message : Str := []
  user_id : Option Nat := none
  number_id : Option Nat := none
  token : Option Str := none
  userRows : List UserRow := []
  numberRows : List NumberRow := []
  storageAccessed : Bool := false

/-- The JSON body of `POST /users/register`; a missing key is `none`. -/
structure RegisterBody where
  name : Option Str := none
  company : Option Str := none
  email : Option Str := none
  phone : Option Str := none

/-- The JSON body of `POST /auth/login`; a missing key is `none`. -/
structure LoginBody where
  username : Option Str := none
  password : Option Str := none

/-- Python's `s.strip() or None` idiom: an empty string becomes `None`. -/
def noneIfEmpty (s : Str) : Option Str :=
  if s.isEmpty then none else some s

def msgNoData : Str := "No data provided".data
def msgNameRequired : Str := "Name is required".data
def msgEmailOrPhone : Str := "Either email or phone number is required".data
def msgInvalidEmail : Str := "Invalid email format".data
def msgInvalidPhone : Str := "Invalid phone number format".data
def msgRegSuccess : Str := "Registration successful!".data
def msgDbError : Str := "Database error occurred".data
def msgUnexpected : Str := "An unexpected error occurred".data
def msgDetailsRequired : Str := "Details number is required".data
def msgNumberSaved : Str := "Phone number saved successfully!".data
def msgCredsRequired : Str := "Username and password are required".data
def msgInvalidCreds : Str := "Invalid credentials".data
def msgLoginSuccess : Str := "Login successful".data
def msgUserNotFound : Str := "User not found".data
def msgUserDeleted : Str := "User deleted successfully".data
def msgNumberNotFound : Str := "Number not found".data
def msgNumberDeleted : Str := "Number deleted successfully".data

/-! ### The handlers

Each handler takes the store, a Bool per fallible storage step (`true` =
the step succeeds, `false` = it raises), and the parsed request body.
Every handler except `UserLogin.post` begins with `conn = None`, so its
`finally: if conn: conn.close()` never fails and closes the connection iff
one was opened; `UserLogin.post` omits the initialisation, so on any path
that never reached `sqlite3.connect` its `finally` raises
`UnboundLocalError`, the pending return value is discarded, and Flask
answers 500 (`escaped = true` below). -/

/-- `UserRegistration.post` (app.py lines 206-259). -/
def registerPost (db : Db) (connectOk insertOk : Bool)
    (body : Option RegisterBody) : Resp :=
  match body with
  | none => { db := db, status := 400, message := msgNoData }
  | some b =>
    let name := pyStrip (b.name.getD [])
    let company := noneIfEmpty (pyStrip (b.company.getD []))
    let email := noneIfEmpty (pyStrip (b.email.getD []))
    let phone := noneIfEmpty (pyStrip (b.phone.getD []))
    if name.isEmpty then
      { db := db, status := 400, message := msgNameRequired }
    else if email.isNone && phone.isNone then
      { db := db, status := 400, message := msgEmailOrPhone }
    else if email.any (fun e => !validate_email e) then
      { db := db, status := 400, message := msgInvalidEmail }
    else if phone.any (fun p => !validate_phone p) then
      { db := db, status := 400, message := msgInvalidPhone }
    else if !connectOk then
      { db := db, status := 500, message := msgUnexpected,
        storageAccessed := true }
    else if !insertOk then
      { db := db, status := 500, message := msgDbError,
        storageAccessed := true }
    else
      let row : UserRow :=
        { id := db.nextUserId, name := name, company := company,
          email := email, phone := phone }
      { db := { db with users := db.users ++ [row],
                        nextUserId := db.nextUserId + 1 },
        status := 201, message := msgRegSuccess,
        user_id := some db.nextUserId, storageAccessed := true }

/-- `PhoneNumber.post` (app.py lines 268-307). -/
def saveNumberPost (db : Db) (connectOk insertOk : Bool)
    (body : Option (Option Str)) : Resp :=
  match body with
  | none => { db := db, status := 400, message := msgNoData }
  | some dn =>
    let details := pyStrip (dn.getD [])
    if details.isEmpty then
      { db := db, status := 400, message := msgDetailsRequired }
    else if !validate_phone details then
      { db := db, status := 400, message := msgInvalidPhone }
    else if !connectOk then
      { db := db, status := 500, message := msgUnexpected,
        storageAccessed := true }
    else if !insertOk then
      { db := db, status := 500, message := msgUnexpected,
        storageAccessed := true }
    else
      { db := { db with
                  numbers := db.numbers ++
                    [{ id := db.nextNumberId, details_number := details }],
                  nextNumberId := db.nextNumberId + 1 },
        status := 201, message := msgNumberSaved,
        number_id := some db.nextNumberId, storageAccessed := true }

/-- `GetAllUsers.get` (app.py lines 314-335).  The SQL orders rows by
`created_at DESC`; timestamps are not modelled, so the rows come back as
stored and only their multiset (in particular their count) is meaningful. -/
def getAllUsersGet (db : Db) (connectOk queryOk : Bool) : Resp :=
  if !connectOk then { db := db, status := 500, storageAccessed := true }
  else if !queryOk then { db := db, status := 500, storageAccessed := true }
  else { db := db, status := 200, userRows := db.users,
         storageAccessed := true }

/-- `GetAllNumbers.get` (app.py lines 342-363). -/
def getAllNumbersGet (db : Db) (connectOk queryOk : Bool) : Resp :=
  if !connectOk then { db := db, status := 500, storageAccessed := true }
  else if !queryOk then { db := db, status := 500, storageAccessed := true }
  else { db := db, status := 200, numberRows := db.numbers,
         storageAccessed := true }

/-- `DeleteAllUsers.delete` (app.py lines 370-388).  The success message
interpolates the deleted count; it is not needed below and left empty. -/
def deleteAllUsersDelete (db : Db) (connectOk execOk : Bool) : Resp :=
  if !connectOk then { db := db, status := 500, storageAccessed := true }
  else if !execOk then { db := db, status := 500, storageAccessed := true }
  else { db := { db with users := [] }, status := 200,
         storageAccessed := true }

/-- `DeleteAllNumbers.delete` (app.py lines 454-472). -/
def deleteAllNumbersDelete (db : Db) (connectOk execOk : Bool) : Resp :=
  if !connectOk then { db := db, status := 500, storageAccessed := true }
  else if !execOk then { db := db, status := 500, storageAccessed := true }
  else { db := { db with numbers := [] }, status := 200,
         storageAccessed := true }

/-- `DeleteUser.delete` (app.py lines 394-417): select the id first, 404 when
absent, otherwise delete the row. -/
def deleteUserById (db : Db) (connectOk selectOk deleteOk : Bool)
    (uid : Nat) : Resp :=
  if !connectOk then { db := db, status := 500, storageAccessed := true }
  else if !selectOk then { db := db, status := 500, storageAccessed := true }
  else if !(db.users.any (fun r => r.id == uid)) then
    { db := db, status := 404, message := msgUserNotFound,
      storageAccessed := true }
  else if !deleteOk then { db := db, status := 500, storageAccessed := true }
  else
    { db := { db with users := db.users.filter (fun r => !(r.id == uid)) },
      status := 200, message := msgUserDeleted, storageAccessed := true }

/-- `DeleteNumber.delete` (app.py lines 425-448). -/
def deleteNumberById (db : Db) (connectOk selectOk deleteOk : Bool)
    (nid : Nat) : Resp :=
  if !connectOk then { db := db, status := 500, storageAccessed := true }
  else if !selectOk then { db := db, status := 500, storageAccessed := true }
  else if !(db.numbers.any (fun r => r.id == nid)) then
    { db := db, status := 404, message := msgNumberNotFound,
      storageAccessed := true }
  else if !deleteOk then { db := db, status := 500, storageAccessed := true }
  else
    { db := { db with
                numbers := db.numbers.filter (fun r => !(r.id == nid)) },
      status := 200, message := msgNumberDeleted, storageAccessed := true }

/-- `SELECT password_hash, salt FROM admin_users WHERE username = ?`. -/
def findAdmin (admins : List AdminRow) (u : Str) : Option AdminRow :=
  admins.find? (fun a => a.username == u)

/-- `UserLogin.post` (app.py lines 139-177).  `hash` abstracts
`hashlib.sha256(·.encode()).hexdigest()` (the handler applies it to
`password + salt`); `freshToken` abstracts the `secrets.token_hex(32)`
drawn on success; `secrets.compare_digest` is equality on the two hex
strings.  The handler does not initialise `conn` before its `try`, so on
every path that returns or raises before `sqlite3.connect` (missing/empty
fields, absent body, failed connect) the `finally` block raises
`UnboundLocalError`, discarding the pending response: Flask answers 500
and `escaped = true`. -/
def loginPost (db : Db) (hash : Str → Str) (freshToken : Str)
    (connectOk : Bool) (body : Option LoginBody) : Resp :=
  match body with
  | none =>
    { db := db, status := 500, escaped := true }
  | some b =>
    let username := pyStrip (b.username.getD [])
    let password := pyStrip (b.password.getD [])
    if username.isEmpty || password.isEmpty then
      { db := db, status := 500, escaped := true }
    else if !connectOk then
      { db := db, status := 500, escaped := true, storageAccessed := true }
    else
      match findAdmin db.admins username with
      | none =>
        { db := db, status := 401, message := msgInvalidCreds,
          storageAccessed := true }
      | some row =>
        if hash (password ++ row.salt) == row.password_hash then
          { db := db, status := 200, message := msgLoginSuccess,
            token := some freshToken, storageAccessed := true }
        else
          { db := db, status := 401, message := msgInvalidCreds,
            storageAccessed := true }

/-- `HealthCheck.get` (app.py lines 476-513).  This handler has no
`finally`: `conn.close()` is executed inline only after both `COUNT`
queries succeed.  `statOk` covers the `DB_PATH` filesystem probes made
after the close.  When the connection opens and a query then raises, the
`except` path answers 500 with the connection still open. -/
def healthGet (db : Db) (connectOk queryOk statOk : Bool) : Resp :=
  if !connectOk then { db := db, status := 500, storageAccessed := true }
  else if !queryOk then
    { db := db, status := 500, connOpenAtExit := true,
      storageAccessed := true }
  else if !statOk then { db := db, status := 500, storageAccessed := true }
  else { db := db, status := 200, storageAccessed := true }

/-! ### The insert/delete counting scenario (claim C9's workload) -/

/-- One step of the workload: a `POST /users/register` with the given body,
or a `DELETE /users/delete/<id>`; storage always succeeds. -/
inductive SeqOp where
  | reg (body : RegisterBody)
  | del (uid : Nat)

/-- Run one step against the store. -/
def applySeqOp (db : Db) : SeqOp → Resp
  | .reg b => registerPost db true true (some b)
  | .del uid => deleteUserById db true true true uid

/-- The success status of each step: 201 for a registration, 200 for a
deletion. -/
def seqOpOkStatus : SeqOp → Nat
  | .reg _ => 201
  | .del _ => 200

/-- Run a whole workload, threading the store. -/
def runSeqOps (db : Db) : List SeqOp → Db
  | [] => db
  | op :: rest => runSeqOps (applySeqOp db op).db rest

/-- Every step of the workload succeeds at the point it executes. -/
def seqOpsSucceed (db : Db) : List SeqOp → Bool
  | [] => true
  | op :: rest =>
    ((applySeqOp db op).status == seqOpOkStatus op) &&
      seqOpsSucceed (applySeqOp db op).db rest

/-- Number of registrations in the workload. -/
def countReg : List SeqOp → Nat
  | [] => 0
  | .reg _ :: rest => countReg rest + 1
  | .del _ :: rest => countReg rest

/-- Number of deletions in the workload. -/
def countDel : List SeqOp → Nat
  | [] => 0
  | .reg _ :: rest => countDel rest
  | .del _ :: rest => countDel rest + 1

/-- The store invariant `AUTOINCREMENT` maintains: user ids are pairwise
distinct and below the next id to be assigned. -/
def usersInv (db : Db) : Prop :=
  (db.users.map UserRow.id).Nodup ∧ ∀ r ∈ db.users, r.id < db.nextUserId

/-! ### Concrete fixtures used by the witnesses below -/

def c5AdminRow : AdminRow :=
  { username := "u".data, password_hash := "HS".data, salt := "s".data }

def c5Db : Db := freshDb [c5AdminRow]

def c5Hash : Str → Str := fun _ => "HS".data

def c8Db : Db :=
  { users := [{ id := 1, name := "Ann".data, company := none, email := none,
                phone := some ("1234567".data) }],
    nextUserId := 2,
    numbers := [{ id := 1, details_number := "1234567".data }],
    nextNumberId := 2, admins := [] }

def c9Ops : List SeqOp :=
  [SeqOp.reg { name := some ("Ann".data), phone := some ("1234567".data) },
   SeqOp.reg { name := some ("Bea".data), phone := some ("7654321".data) },
   SeqOp.del 1]

/-! ### Helper lemmas -/

theorem isEmpty_false_of_ne_nil {α : Type} (l : List α) (h : l ≠ []) :
    l.isEmpty = false := by
  cases l with
  | nil => exact absurd rfl h
  | cons a t => rfl

theorem pyStrip_eq_nil_of_all_space (s : Str) (h : s.all pyIsSpace = true) :
    pyStrip s = [] := by
  unfold pyStrip
  have h1 : s.dropWhile pyIsSpace = [] := by
    rw [List.dropWhile_eq_nil_iff]
    intro x hx
    exact List.all_eq_true.mp h x hx
  rw [h1]
  rfl

theorem splitAtFirstAt_append (t : Str) (c : Char) (l d : Str)
    (h : splitAtFirstAt t = some (l, d)) :
    splitAtFirstAt (t ++ [c]) = some (l, d ++ [c]) := by
  induction t generalizing l d with
  | nil => simp [splitAtFirstAt] at h
  | cons a rest ih =>
    by_cases ha : a = '@'
    · subst ha
      simp only [splitAtFirstAt, if_pos rfl, Option.some.injEq,
        Prod.mk.injEq] at h
      obtain ⟨rfl, rfl⟩ := h
      simp [splitAtFirstAt]
    · simp only [List.cons_append, splitAtFirstAt, if_neg ha] at h ⊢
      cases hsp : splitAtFirstAt rest with
      | none => rw [hsp] at h; cases h
      | some pr =>
        obtain ⟨l2, r2⟩ := pr
        rw [hsp] at h
        simp only [Option.some.injEq, Prod.mk.injEq] at h
        obtain ⟨rfl, rfl⟩ := h
        rw [List.append_eq, ih l2 r2 hsp]

theorem hasDotNonLast_append (r : Str) (c : Char)
    (h : hasDotNonLast r = true) : hasDotNonLast (r ++ [c]) = true := by
  induction r with
  | nil => simp [hasDotNonLast] at h
  | cons a rest ih =>
    cases rest with
    | nil => simp [hasDotNonLast] at h
    | cons b rest2 =>
      simp only [hasDotNonLast, Bool.or_eq_true] at h
      simp only [List.cons_append, hasDotNonLast, Bool.or_eq_true]
      rcases h with h1 | h2
      · exact Or.inl h1
      · exact Or.inr (ih h2)

theorem domainHasInteriorDot_append_newline (d : Str)
    (h : domainHasInteriorDot d = true) :
    domainHasInteriorDot (d ++ ['\n']) = true := by
  cases d with
  | nil => simp [domainHasInteriorDot] at h
  | cons a rest =>
    simp only [domainHasInteriorDot] at h
    simp only [List.cons_append, domainHasInteriorDot]
    exact hasDotNonLast_append rest '\n' h

theorem emailCore_shape (t : Str) (h : emailCoreMatch t = true) :
    claimEmailShape t = true := by
  unfold emailCoreMatch at h
  unfold claimEmailShape
  cases hsp : splitAtFirstAt t with
  | none => rw [hsp] at h; cases h
  | some pr =>
    obtain ⟨l, d⟩ := pr
    rw [hsp] at h
    simp only [Bool.and_eq_true] at h
    obtain ⟨⟨⟨h1, h2⟩, h3⟩, h4⟩ := h
    simp only [Bool.and_eq_true]
    refine ⟨⟨⟨h1, h2⟩, ?_⟩, h4⟩
    rw [List.all_eq_true] at h3 ⊢
    intro c hc
    have hok := h3 c hc
    unfold okEmailChar at hok
    rw [Bool.and_eq_true] at hok
    exact hok.2

theorem emailCore_shape_newline (t : Str) (h : emailCoreMatch t = true) :
    claimEmailShape (t ++ ['\n']) = true := by
  unfold emailCoreMatch at h
  unfold claimEmailShape
  cases hsp : splitAtFirstAt t with
  | none => rw [hsp] at h; cases h
  | some pr =>
    obtain ⟨l, d⟩ := pr
    rw [hsp] at h
    simp only [Bool.and_eq_true] at h
    obtain ⟨⟨⟨h1, h2⟩, h3⟩, h4⟩ := h
    rw [splitAtFirstAt_append t '\n' l d hsp]
    simp only [Bool.and_eq_true]
    refine ⟨⟨⟨h1, h2⟩, ?_⟩, domainHasInteriorDot_append_newline d h4⟩
    rw [List.all_eq_true] at h3 ⊢
    intro c hc
    rcases List.mem_append.mp hc with hcd | hcn
    · have hok := h3 c hcd
      unfold okEmailChar at hok
      rw [Bool.and_eq_true] at hok
      exact hok.2
    · have : c = '\n' := List.mem_singleton.mp hcn
      subst this
      decide

theorem validate_email_implies_shape (s : Str)
    (h : validate_email s = true) : claimEmailShape s = true := by
  cases hrev : s.reverse with
  | nil =>
    have hs : s = [] := List.reverse_eq_nil_iff.mp hrev
    subst hs
    cases h
  | cons c r =>
    have hs : s = r.reverse ++ [c] := by
      have := congrArg List.reverse hrev
      simpa using this
    subst hs
    by_cases hc : c = '\n'
    · subst hc
      have hd : dropTrailingNewline (r.reverse ++ ['\n']) = r.reverse := by
        unfold dropTrailingNewline
        simp
      unfold validate_email at h
      rw [hd] at h
      exact emailCore_shape_newline r.reverse h
    · have hd : dropTrailingNewline (r.reverse ++ [c]) = r.reverse ++ [c] := by
        unfold dropTrailingNewline
        simp [hc]
      unfold validate_email at h
      rw [hd] at h
      exact emailCore_shape _ h

/-! ### Case analyses of the two mutating user handlers (storage succeeding) -/

theorem registerPost_cases (db : Db) (b : RegisterBody) :
    ((registerPost db true true (some b)).db = db ∧
      (registerPost db true true (some b)).status ≠ 201) ∨
    (∃ row : UserRow, row.id = db.nextUserId ∧
      (registerPost db true true (some b)).db =
        { db with users := db.users ++ [row],
                  nextUserId := db.nextUserId + 1 } ∧
      (registerPost db true true (some b)).status = 201) := by
  simp only [registerPost, Bool.not_true, Bool.false_eq_true, if_false]
  split
  · exact Or.inl ⟨rfl, Nat.ne_of_beq_eq_false rfl⟩
  split
  · exact Or.inl ⟨rfl, Nat.ne_of_beq_eq_false rfl⟩
  split
  · exact Or.inl ⟨rfl, Nat.ne_of_beq_eq_false rfl⟩
  split
  · exact Or.inl ⟨rfl, Nat.ne_of_beq_eq_false rfl⟩
  exact Or.inr ⟨_, rfl, rfl, rfl⟩

theorem deleteUserById_cases (db : Db) (uid : Nat) :
    ((deleteUserById db true true true uid).db = db ∧
      (deleteUserById db true true true uid).status ≠ 200) ∨
    (db.users.any (fun r => r.id == uid) = true ∧
      (deleteUserById db true true true uid).db =
        { db with users := db.users.filter (fun r => !(r.id == uid)) } ∧
      (deleteUserById db true true true uid).status = 200) := by
  simp only [deleteUserById, Bool.not_true, Bool.false_eq_true, if_false]
  split
  · exact Or.inl ⟨rfl, Nat.ne_of_beq_eq_false rfl⟩
  next hA =>
    refine Or.inr ⟨?_, rfl, rfl⟩
    cases h : db.users.any (fun r => r.id == uid) with
    | false => exact absurd (by rw [h]; rfl) hA
    | true => rfl

theorem length_filter_remove_one (l : List UserRow) (uid : Nat)
    (hnd : (l.map UserRow.id).Nodup)
    (hmem : l.any (fun r => r.id == uid) = true) :
    (l.filter (fun r => !(r.id == uid))).length + 1 = l.length := by
  induction l with
  | nil => simp at hmem
  | cons a t ih =>
    simp only [List.map_cons, List.nodup_cons] at hnd
    obtain ⟨hna, hndt⟩ := hnd
    by_cases ha : a.id = uid
    · have ht : t.filter (fun r => !(r.id == uid)) = t := by
        rw [List.filter_eq_self]
        intro r hr
        have hne : r.id ≠ uid := by
          intro he
          exact hna (by rw [ha, ← he]; exact List.mem_map_of_mem UserRow.id hr)
        simp [hne]
      simp [List.filter_cons, ha, ht]
    · have hmem2 : t.any (fun r => r.id == uid) = true := by
        simp only [List.any_cons, Bool.or_eq_true, beq_iff_eq] at hmem
        rcases hmem with h | h
        · exact absurd h ha
        · exact h
      have := ih hndt hmem2
      simp only [List.filter_cons, List.length_cons]
      rw [if_pos (by simp [ha])]
      simp only [List.length_cons]
      omega

theorem usersInv_register (db : Db) (row : UserRow)
    (hrow : row.id = db.nextUserId) (hinv : usersInv db) :
    usersInv { db with users := db.users ++ [row],
                       nextUserId := db.nextUserId + 1 } := by
  obtain ⟨hnd, hlt⟩ := hinv
  constructor
  · simp only [List.map_append, List.map_cons, List.map_nil]
    rw [List.nodup_append]
    refine ⟨hnd, List.nodup_singleton _, ?_⟩
    intro x hx hx1
    have hxlt : x < db.nextUserId := by
      obtain ⟨r, hr, rfl⟩ := List.mem_map.mp hx
      exact hlt r hr
    have : x = row.id := List.mem_singleton.mp hx1
    omega
  · intro r hr
    show r.id < db.nextUserId + 1
    rcases List.mem_append.mp hr with h | h
    · have := hlt r h
      omega
    · have : r = row := List.mem_singleton.mp h
      subst this
      omega

theorem usersInv_delete (db : Db) (uid : Nat) (hinv : usersInv db) :
    usersInv { db with users := db.users.filter (fun r => !(r.id == uid)) } := by
  obtain ⟨hnd, hlt⟩ := hinv
  constructor
  · exact hnd.sublist ((List.filter_sublist _).map _)
  · intro r hr
    exact hlt r (List.mem_of_mem_filter hr)

theorem runSeqOps_count (ops : List SeqOp) :
    ∀ db : Db, usersInv db → seqOpsSucceed db ops = true →
      (runSeqOps db ops).users.length + countDel ops =
        db.users.length + countReg ops := by
  induction ops with
  | nil =>
    intro db _ _
    simp [runSeqOps, countReg, countDel]
  | cons op rest ih =>
    intro db hinv hs
    simp only [seqOpsSucceed, Bool.and_eq_true, beq_iff_eq] at hs
    obtain ⟨hst, hrest⟩ := hs
    cases op with
    | reg b =>
      rcases registerPost_cases db b with ⟨hdb, hne⟩ | ⟨row, hrow, hdb, h201⟩
      · exact absurd hst (by simpa [applySeqOp, seqOpOkStatus] using hne)
      · have hinv2 := usersInv_register db row hrow hinv
        have hdb2 : (applySeqOp db (SeqOp.reg b)).db =
            { db with users := db.users ++ [row],
                      nextUserId := db.nextUserId + 1 } := hdb
        have hih := ih _ (hdb2 ▸ hinv2) (hdb2 ▸ hrest)
        simp only [runSeqOps, countReg, countDel, hdb2] at hih ⊢
        simp only [List.length_append, List.length_cons, List.length_nil] at hih
        omega
    | del uid =>
      rcases deleteUserById_cases db uid with ⟨hdb, hne⟩ | ⟨hany, hdb, h200⟩
      · exact absurd hst (by simpa [applySeqOp, seqOpOkStatus] using hne)
      · have hinv2 := usersInv_delete db uid hinv
        have hdb2 : (applySeqOp db (SeqOp.del uid)).db =
            { db with users := db.users.filter (fun r => !(r.id == uid)) } := hdb
        have hih := ih _ (hdb2 ▸ hinv2) (hdb2 ▸ hrest)
        have hlen := length_filter_remove_one db.users uid hinv.1 hany
        simp only [runSeqOps, countReg, countDel, hdb2] at hih ⊢
        omega

/-! ### Connection release facts, one per handler -/

theorem registerPost_conn_closed (db : Db) (c1 c2 : Bool)
    (b : Option RegisterBody) :
    (registerPost db c1 c2 b).connOpenAtExit = false := by
  cases b with
  | none => rfl
  | some b =>
    simp only [registerPost]
    repeat' split
    all_goals rfl

theorem saveNumberPost_conn_closed (db : Db) (c1 c2 : Bool)
    (b : Option (Option Str)) :
    (saveNumberPost db c1 c2 b).connOpenAtExit = false := by
  cases b with
  | none => rfl
  | some dn =>
    simp only [saveNumberPost]
    repeat' split
    all_goals rfl

theorem getAllUsersGet_conn_closed (db : Db) (c1 c2 : Bool) :
    (getAllUsersGet db c1 c2).connOpenAtExit = false := by
  cases c1 <;> cases c2 <;> rfl

theorem getAllNumbersGet_conn_closed (db : Db) (c1 c2 : Bool) :
    (getAllNumbersGet db c1 c2).connOpenAtExit = false := by
  cases c1 <;> cases c2 <;> rfl

theorem deleteAllUsersDelete_conn_closed (db : Db) (c1 c2 : Bool) :
    (deleteAllUsersDelete db c1 c2).connOpenAtExit = false := by
  cases c1 <;> cases c2 <;> rfl

theorem deleteAllNumbersDelete_conn_closed (db : Db) (c1 c2 : Bool) :
    (deleteAllNumbersDelete db c1 c2).connOpenAtExit = false := by
  cases c1 <;> cases c2 <;> rfl

theorem deleteUserById_conn_closed (db : Db) (c1 c2 c3 : Bool) (uid : Nat) :
    (deleteUserById db c1 c2 c3 uid).connOpenAtExit = false := by
  simp only [deleteUserById]
  repeat' split
  all_goals rfl

theorem deleteNumberById_conn_closed (db : Db) (c1 c2 c3 : Bool) (nid : Nat) :
    (deleteNumberById db c1 c2 c3 nid).connOpenAtExit = false := by
  simp only [deleteNumberById]
  repeat' split
  all_goals rfl

theorem loginPost_conn_closed (db : Db) (hash : Str → Str) (tok : Str)
    (c1 : Bool) (b : Option LoginBody) :
    (loginPost db hash tok c1 b).connOpenAtExit = false := by
  cases b with
  | none => rfl
  | some b =>
    simp only [loginPost]
    repeat' split
    all_goals rfl

theorem healthGet_conn_open_iff (db : Db) (c1 c2 c3 : Bool) :
    (healthGet db c1 c2 c3).connOpenAtExit = (c1 && !c2) := by
  cases c1 <;> cases c2 <;> cases c3 <;> rfl

/-! ### The claims -/

/-- C1 (counterexample): the claim strips only the literal space character,
but the code's regex class `\s` also strips TAB: on `"123\t4567"` the code
accepts (the TAB is removed, leaving 7 digits) while the claim's predicate
rejects (the TAB remains, a non-digit). -/
theorem validate_phone_claim_counterexample :
    validate_phone ("123\t4567".data) = true ∧
    validate_phone_claimed ("123\t4567".data) = false := by
  decide

/-- C1 (amended): `validate_phone` agrees with the claim once "space" is
widened to the whole whitespace class `\s` (space, TAB, LF, VT, FF, CR,
FS, GS, RS, US): it accepts exactly the strings whose remainder after
removing whitespace, hyphen, `'('`, `')'`, `'+'` is non-empty, all decimal
digits, and of length at least 7. -/
theorem validate_phone_eq_amended_spec :
    ∀ s : Str, validate_phone s = validate_phone_amendedSpec s := by
  intro s
  simp [validate_phone, validate_phone_amendedSpec, pyStrIsDigit,
    stripPhoneChar, Bool.and_assoc]

/-- C2 (code evaluated at the failing input): a login request whose
username is empty after trimming makes the handler's `finally` block
reference the never-assigned local `conn`, raising `UnboundLocalError`;
the pending 401 response is discarded and the framework answers 500, not
the 401 the claim states. -/
theorem login_empty_fields_yields_500_not_401 :
    (loginPost (freshDb []) (fun s => s) [] true
        (some { username := some [], password := some ("x".data) })).status
      = 500 ∧
    (loginPost (freshDb []) (fun s => s) [] true
        (some { username := some [], password := some ("x".data) })).escaped
      = true := by
  decide

/-- C3 (counterexample): `HealthCheck.get` has no `finally`; when the
connection opens and a count query then raises, the handler exits through
its `except` path with the connection still open. -/
theorem health_check_leaks_connection_on_query_failure :
    (healthGet (freshDb []) true false true).connOpenAtExit = true := by
  decide

/-- C3 (amended): every handler except Health Check releases its connection
on every exit path, including exception paths; Health Check leaves its
connection open exactly when the connection opened and a count query then
failed. -/
theorem connection_release_amended :
    ∀ (db : Db) (hash : Str → Str) (tok : Str) (c1 c2 c3 : Bool)
      (rb : Option RegisterBody) (nb : Option (Option Str))
      (lb : Option LoginBody) (uid nid : Nat),
      (registerPost db c1 c2 rb).connOpenAtExit = false ∧
      (saveNumberPost db c1 c2 nb).connOpenAtExit = false ∧
      (getAllUsersGet db c1 c2).connOpenAtExit = false ∧
      (getAllNumbersGet db c1 c2).connOpenAtExit = false ∧
      (deleteAllUsersDelete db c1 c2).connOpenAtExit = false ∧
      (deleteAllNumbersDelete db c1 c2).connOpenAtExit = false ∧
      (deleteUserById db c1 c2 c3 uid).connOpenAtExit = false ∧
      (deleteNumberById db c1 c2 c3 nid).connOpenAtExit = false ∧
      (loginPost db hash tok c1 lb).connOpenAtExit = false ∧
      (healthGet db c1 c2 c3).connOpenAtExit = (c1 && !c2) := by
  intro db hash tok c1 c2 c3 rb nb lb uid nid
  exact ⟨registerPost_conn_closed db c1 c2 rb,
    saveNumberPost_conn_closed db c1 c2 nb,
    getAllUsersGet_conn_closed db c1 c2,
    getAllNumbersGet_conn_closed db c1 c2,
    deleteAllUsersDelete_conn_closed db c1 c2,
    deleteAllNumbersDelete_conn_closed db c1 c2,
    deleteUserById_conn_closed db c1 c2 c3 uid,
    deleteNumberById_conn_closed db c1 c2 c3 nid,
    loginPost_conn_closed db hash tok c1 lb,
    healthGet_conn_open_iff db c1 c2 c3⟩

/-- C4: any string outside the claimed shape (exactly one `'@'` separating
a non-empty local part without whitespace or `'@'` from a domain part
containing a dot with non-empty pieces around it) is rejected by
`validate_email`. -/
theorem validate_email_false_without_claimed_shape (s : Str)
    (h : claimEmailShape s = false) : validate_email s = false := by
  cases hv : validate_email s with
  | false => rfl
  | true =>
    exact absurd (validate_email_implies_shape s hv) (by simp [h])

/-- C4 witness: the shapeless string `"abc"` is indeed rejected. -/
theorem validate_email_false_without_claimed_shape_witness :
    claimEmailShape ("abc".data) = false ∧
    validate_email ("abc".data) = false :=
  ⟨by decide, validate_email_false_without_claimed_shape ("abc".data)
    (by decide)⟩

/-- C5: for a login whose trimmed username and password are non-empty and
whose username is found in `admin_users`, the handler answers 200 (with
message and fresh token) exactly when the hash of password‖salt equals the
stored hash, and 401 otherwise.  `hash` abstracts the hex SHA-256 of the
code. -/
theorem login_salted_hash_decides (db : Db) (hash : Str → Str) (tok : Str)
    (u p : Str) (row : AdminRow)
    (hu : pyStrip u ≠ [])
    (hp : pyStrip p ≠ [])
    (hfind : findAdmin db.admins (pyStrip u) = some row) :
    ((loginPost db hash tok true
        (some { username := some u, password := some p })).status = 200 ↔
      hash (pyStrip p ++ row.salt) = row.password_hash) ∧
    ((loginPost db hash tok true
        (some { username := some u, password := some p })).status = 200 →
      (loginPost db hash tok true
        (some { username := some u, password := some p })).token = some tok ∧
      (loginPost db hash tok true
        (some { username := some u, password := some p })).message =
          msgLoginSuccess) ∧
    (hash (pyStrip p ++ row.salt) ≠ row.password_hash →
      (loginPost db hash tok true
        (some { username := some u, password := some p })).status = 401) := by
  have hU := isEmpty_false_of_ne_nil _ hu
  have hP := isEmpty_false_of_ne_nil _ hp
  simp only [loginPost, Option.getD_some, hU, hP, Bool.or_self,
    Bool.not_true, Bool.false_eq_true, if_false, hfind]
  by_cases heq : hash (pyStrip p ++ row.salt) = row.password_hash
  · simp [heq]
  · simp [heq]

/-- C5 witness: a concrete store with one admin row whose stored hash the
(abstract) hash function reproduces; the login answers 200 with the fresh
token. -/
theorem login_salted_hash_decides_witness :
    pyStrip ("u".data) ≠ [] ∧ pyStrip ("p".data) ≠ [] ∧
    findAdmin c5Db.admins (pyStrip ("u".data)) = some c5AdminRow ∧
    (((loginPost c5Db c5Hash ("t".data) true
        (some { username := some ("u".data),
                password := some ("p".data) })).status = 200 ↔
      c5Hash (pyStrip ("p".data) ++ c5AdminRow.salt) =
        c5AdminRow.password_hash) ∧
    ((loginPost c5Db c5Hash ("t".data) true
        (some { username := some ("u".data),
                password := some ("p".data) })).status = 200 →
      (loginPost c5Db c5Hash ("t".data) true
        (some { username := some ("u".data),
                password := some ("p".data) })).token = some ("t".data) ∧
      (loginPost c5Db c5Hash ("t".data) true
        (some { username := some ("u".data),
                password := some ("p".data) })).message = msgLoginSuccess) ∧
    (c5Hash (pyStrip ("p".data) ++ c5AdminRow.salt) ≠
        c5AdminRow.password_hash →
      (loginPost c5Db c5Hash ("t".data) true
        (some { username := some ("u".data),
                password := some ("p".data) })).status = 401)) :=
  ⟨by decide, by decide, by decide,
    login_salted_hash_decides c5Db c5Hash ("t".data) ("u".data) ("p".data)
      c5AdminRow (by decide) (by decide) (by decide)⟩

theorem pyStrip_nil : pyStrip [] = [] := rfl

/-- C6: when both the email and the phone field are empty or whitespace-only
(hence empty after trimming), registration answers 400 — under any name and
company — and never touches storage. -/
theorem register_no_contact_400 (db : Db) (c1 c2 : Bool)
    (nm cp em ph : Option Str)
    (he : (em.getD []).all pyIsSpace = true)
    (hp : (ph.getD []).all pyIsSpace = true) :
    (registerPost db c1 c2
      (some { name := nm, company := cp, email := em,
              phone := ph })).status = 400 ∧
    (registerPost db c1 c2
      (some { name := nm, company := cp, email := em,
              phone := ph })).storageAccessed = false := by
  have hse : pyStrip (em.getD []) = [] := pyStrip_eq_nil_of_all_space _ he
  have hsp : pyStrip (ph.getD []) = [] := pyStrip_eq_nil_of_all_space _ hp
  by_cases hn : (pyStrip (nm.getD [])).isEmpty
  · simp [registerPost, hse, hsp, noneIfEmpty, hn]
  · simp [registerPost, hse, hsp, noneIfEmpty, hn]

/-- C6 witness: blank email and phone with a perfectly good name. -/
theorem register_no_contact_400_witness :
    ((some (" ".data) : Option Str).getD []).all pyIsSpace = true ∧
    ((some [] : Option Str).getD []).all pyIsSpace = true ∧
    ((registerPost (freshDb []) true true
      (some { name := some ("Bob".data), company := none,
              email := some (" ".data),
              phone := some [] })).status = 400 ∧
    (registerPost (freshDb []) true true
      (some { name := some ("Bob".data), company := none,
              email := some (" ".data),
              phone := some [] })).storageAccessed = false) :=
  ⟨by decide, by decide,
    register_no_contact_400 (freshDb []) true true (some ("Bob".data)) none
      (some (" ".data)) (some []) (by decide) (by decide)⟩

/-- C7: a registration with a name that survives trimming, a phone accepted
by `validate_phone`, and no email succeeds when the insert succeeds: 201,
the success message, and a positive `user_id` equal to the id the store
assigns to the appended row. -/
theorem register_name_phone_success (db : Db) (nm ph : Str) (cp : Option Str)
    (hn : pyStrip nm ≠ [])
    (hph : validate_phone (pyStrip ph) = true)
    (hid : 1 ≤ db.nextUserId) :
    (registerPost db true true
      (some { name := some nm, company := cp, email := none,
              phone := some ph })).status = 201 ∧
    (registerPost db true true
      (some { name := some nm, company := cp, email := none,
              phone := some ph })).message = msgRegSuccess ∧
    (registerPost db true true
      (some { name := some nm, company := cp, email := none,
              phone := some ph })).user_id = some db.nextUserId ∧
    1 ≤ db.nextUserId ∧
    (registerPost db true true
      (some { name := some nm, company := cp, email := none,
              phone := some ph })).db.users =
      db.users ++
        [{ id := db.nextUserId, name := pyStrip nm,
           company := noneIfEmpty (pyStrip (cp.getD [])),
           email := none, phone := some (pyStrip ph) }] := by
  have hpne : pyStrip ph ≠ [] := by
    intro h0
    rw [h0] at hph
    exact absurd hph (by decide)
  have hN := isEmpty_false_of_ne_nil _ hn
  have hPh := isEmpty_false_of_ne_nil _ hpne
  refine ⟨?_, ?_, ?_, hid, ?_⟩ <;>
    simp [registerPost, noneIfEmpty, pyStrip_nil, hN, hPh, hph]

/-- C7 witness: the spec's own example, `{"name": "Ann",
"phone": "+1 (555) 123-4567"}` against the fresh store. -/
theorem register_name_phone_success_witness :
    pyStrip ("Ann".data) ≠ [] ∧
    validate_phone (pyStrip ("+1 (555) 123-4567".data)) = true ∧
    1 ≤ (freshDb []).nextUserId ∧
    ((registerPost (freshDb []) true true
      (some { name := some ("Ann".data), company := none, email := none,
              phone := some ("+1 (555) 123-4567".data) })).status = 201 ∧
    (registerPost (freshDb []) true true
      (some { name := some ("Ann".data), company := none, email := none,
              phone := some ("+1 (555) 123-4567".data) })).message =
        msgRegSuccess ∧
    (registerPost (freshDb []) true true
      (some { name := some ("Ann".data), company := none, email := none,
              phone := some ("+1 (555) 123-4567".data) })).user_id =
        some (freshDb []).nextUserId ∧
    1 ≤ (freshDb []).nextUserId ∧
    (registerPost (freshDb []) true true
      (some { name := some ("Ann".data), company := none, email := none,
              phone := some ("+1 (555) 123-4567".data) })).db.users =
      (freshDb []).users ++
        [{ id := (freshDb []).nextUserId, name := pyStrip ("Ann".data),
           company := noneIfEmpty (pyStrip ((none : Option Str).getD [])),
           email := none,
           phone := some (pyStrip ("+1 (555) 123-4567".data)) }]) :=
  ⟨by decide, by decide, by decide,
    register_name_phone_success (freshDb []) ("Ann".data)
      ("+1 (555) 123-4567".data) none (by decide) (by decide) (by decide)⟩

/-- C8: deleting an id that no user row carries answers 404 and leaves the
`users` table unchanged; likewise for phone-number rows and
`users_numbers`. -/
theorem delete_missing_id_404_no_mutation (db : Db) (uid nid : Nat)
    (hu : ∀ r ∈ db.users, r.id ≠ uid)
    (hn : ∀ r ∈ db.numbers, r.id ≠ nid) :
    (deleteUserById db true true true uid).status = 404 ∧
    (deleteUserById db true true true uid).db.users = db.users ∧
    (deleteNumberById db true true true nid).status = 404 ∧
    (deleteNumberById db true true true nid).db.numbers = db.numbers := by
  have hA : db.users.any (fun r => r.id == uid) = false := by
    cases h : db.users.any (fun r => r.id == uid) with
    | false => rfl
    | true =>
      obtain ⟨r, hr, hrid⟩ := List.any_eq_true.mp h
      exact absurd (by simpa using hrid) (hu r hr)
  have hB : db.numbers.any (fun r => r.id == nid) = false := by
    cases h : db.numbers.any (fun r => r.id == nid) with
    | false => rfl
    | true =>
      obtain ⟨r, hr, hrid⟩ := List.any_eq_true.mp h
      exact absurd (by simpa using hrid) (hn r hr)
  simp [deleteUserById, deleteNumberById, hA, hB]

/-- C8 witness: a store with one user row (id 1) and one number row (id 1);
deleting id 2 from either table answers 404 and changes nothing. -/
theorem delete_missing_id_404_no_mutation_witness :
    (∀ r ∈ c8Db.users, r.id ≠ 2) ∧ (∀ r ∈ c8Db.numbers, r.id ≠ 2) ∧
    ((deleteUserById c8Db true true true 2).status = 404 ∧
    (deleteUserById c8Db true true true 2).db.users = c8Db.users ∧
    (deleteNumberById c8Db true true true 2).status = 404 ∧
    (deleteNumberById c8Db true true true 2).db.numbers = c8Db.numbers) :=
  ⟨by decide, by decide,
    delete_missing_id_404_no_mutation c8Db 2 2 (by decide) (by decide)⟩

/-- C9: starting from an empty `users` table, after any workload of
registrations and deletions in which every step succeeds (so each deletion
removes an id actually present), listing users returns exactly
N − M rows, where N counts the registrations and M the deletions. -/
theorem list_users_counts_reg_minus_del (db : Db) (ops : List SeqOp)
    (h0 : db.users = [])
    (hs : seqOpsSucceed db ops = true) :
    countDel ops ≤ countReg ops ∧
    (getAllUsersGet (runSeqOps db ops) true true).userRows.length =
      countReg ops - countDel ops := by
  have hinv : usersInv db := by
    constructor
    · rw [h0]
      exact List.nodup_nil
    · intro r hr
      rw [h0] at hr
      cases hr
  have hc := runSeqOps_count ops db hinv hs
  rw [h0] at hc
  simp only [List.length_nil, Nat.zero_add] at hc
  have hrows : (getAllUsersGet (runSeqOps db ops) true true).userRows =
      (runSeqOps db ops).users := rfl
  rw [hrows]
  omega

/-- C9 witness: two successful registrations then one successful deletion
leave exactly one listed row. -/
theorem list_users_counts_reg_minus_del_witness :
    (freshDb []).users = [] ∧
    seqOpsSucceed (freshDb []) c9Ops = true ∧
    (countDel c9Ops ≤ countReg c9Ops ∧
     (getAllUsersGet (runSeqOps (freshDb []) c9Ops) true
        true).userRows.length = countReg c9Ops - countDel c9Ops) :=
  ⟨rfl, by decide,
    list_users_counts_reg_minus_del (freshDb []) c9Ops rfl (by decide)⟩

/-- C10: a whitespace-only optional field is trimmed to empty and stored as
NULL rather than rejected.  Part one: with a valid name and phone, a
whitespace-only email and company yield 201 (never the invalid-email 400)
and the stored row has NULL email and company.  Part two: the same rule on
the phone field — whitespace-only phone with a valid email yields 201 and a
NULL stored phone. -/
theorem register_blank_optional_fields_null (db : Db)
    (nm ph em cp nm2 em2 ph2 : Str)
    (hn : pyStrip nm ≠ [])
    (hph : validate_phone (pyStrip ph) = true)
    (hem : em.all pyIsSpace = true)
    (hcp : cp.all pyIsSpace = true)
    (hn2 : pyStrip nm2 ≠ [])
    (hem2 : validate_email (pyStrip em2) = true)
    (hph2 : ph2.all pyIsSpace = true) :
    ((registerPost db true true
        (some { name := some nm, company := some cp, email := some em,
                phone := some ph })).status = 201 ∧
     (registerPost db true true
        (some { name := some nm, company := some cp, email := some em,
                phone := some ph })).message = msgRegSuccess ∧
     (registerPost db true true
        (some { name := some nm, company := some cp, email := some em,
                phone := some ph })).db.users =
       db.users ++
         [{ id := db.nextUserId, name := pyStrip nm, company := none,
            email := none, phone := some (pyStrip ph) }]) ∧
    ((registerPost db true true
        (some { name := some nm2, company := none, email := some em2,
                phone := some ph2 })).status = 201 ∧
     (registerPost db true true
        (some { name := some nm2, company := none, email := some em2,
                phone := some ph2 })).db.users =
       db.users ++
         [{ id := db.nextUserId, name := pyStrip nm2, company := none,
            email := some (pyStrip em2), phone := none }]) := by
  have hpne : pyStrip ph ≠ [] := by
    intro h0
    rw [h0] at hph
    exact absurd hph (by decide)
  have hene2 : pyStrip em2 ≠ [] := by
    intro h0
    rw [h0] at hem2
    exact absurd hem2 (by decide)
  have hse : pyStrip em = [] := pyStrip_eq_nil_of_all_space _ hem
  have hsc : pyStrip cp = [] := pyStrip_eq_nil_of_all_space _ hcp
  have hsp2 : pyStrip ph2 = [] := pyStrip_eq_nil_of_all_space _ hph2
  have hN := isEmpty_false_of_ne_nil _ hn
  have hPh := isEmpty_false_of_ne_nil _ hpne
  have hN2 := isEmpty_false_of_ne_nil _ hn2
  have hE2 := isEmpty_false_of_ne_nil _ hene2
  constructor
  · refine ⟨?_, ?_, ?_⟩ <;>
      simp [registerPost, noneIfEmpty, pyStrip_nil, hse, hsc, hN, hPh, hph]
  · refine ⟨?_, ?_⟩ <;>
      simp [registerPost, noneIfEmpty, pyStrip_nil, hsp2, hN2, hE2, hem2]

/-- C10 witness: concrete blank-field registrations against the fresh
store. -/
theorem register_blank_optional_fields_null_witness :
    pyStrip ("Ann".data) ≠ [] ∧
    validate_phone (pyStrip ("1234567".data)) = true ∧
    (" ".data).all pyIsSpace = true ∧
    pyStrip ("Bob".data) ≠ [] ∧
    validate_email (pyStrip ("a@b.c".data)) = true ∧
    (((registerPost (freshDb []) true true
        (some { name := some ("Ann".data), company := some (" ".data),
                email := some (" ".data),
                phone := some ("1234567".data) })).status = 201 ∧
     (registerPost (freshDb []) true true
        (some { name := some ("Ann".data), company := some (" ".data),
                email := some (" ".data),
                phone := some ("1234567".data) })).message = msgRegSuccess ∧
     (registerPost (freshDb []) true true
        (some { name := some ("Ann".data), company := some (" ".data),
                email := some (" ".data),
                phone := some ("1234567".data) })).db.users =
       (freshDb []).users ++
         [{ id := (freshDb []).nextUserId, name := pyStrip ("Ann".data),
            company := none, email := none,
            phone := some (pyStrip ("1234567".data)) }]) ∧
    ((registerPost (freshDb []) true true
        (some { name := some ("Bob".data), company := none,
                email := some ("a@b.c".data),
                phone := some (" ".data) })).status = 201 ∧
     (registerPost (freshDb []) true true
        (some { name := some ("Bob".data), company := none,
                email := some ("a@b.c".data),
                phone := some (" ".data) })).db.users =
       (freshDb []).users ++
         [{ id := (freshDb []).nextUserId, name := pyStrip ("Bob".data),
            company := none, email := some (pyStrip ("a@b.c".data)),
            phone := none }])) :=
  ⟨by decide, by decide, by decide, by decide, by decide,
    register_blank_optional_fields_null (freshDb []) ("Ann".data)
      ("1234567".data) (" ".data) (" ".data) ("Bob".data) ("a@b.c".data)
      (" ".data) (by decide) (by decide) (by decide) (by decide) (by decide)
      (by decide) (by decide)⟩

-- Quick sanity checks of the two validators on concrete inputs.
example : validate_phone ("+1 (555) 123-4567".data) = true := by decide
example : validate_phone ("123456".data) = false := by decide
example : validate_phone ("12345a7".data) = false := by decide
example : validate_email ("a@b.c".data) = true := by decide
example : validate_email ("a@b.c\n".data) = true := by decide
example : validate_email ("a@bc".data) = false := by decide
example : validate_email ("a@@b.c".data) = false := by decide
example : validate_email ("@b.c".data) = false := by decide
example : validate_email ("a@.c".data) = false := by decide
example : validate_email ("a@x.c.".data) = true := by decide
example : validate_email ("a@.x.c".data) = true := by decide
example : validate_email ("a@c.".data) = false := by decide
example : validate_email ("a b@c.d".data) = false := by decide
